import Mathlib

/-!
Verification development for the vm-operator VM convergence engine and its
admission-validation layer.

Part 1 embeds the PersistentVolumeClaim admission validator from
`webhooks/persistentvolumeclaim/validation/persistentvolumeclaim_validator.go`.
Labels and topology maps are association lists; the JSON codec for the
requested-topology value is an external collaborator, so a PVC carries the
already-parsed topology list (`none` models an absent or empty value).

Part 2 models the Convergence Reconciler (`CreateOrUpdateVirtualMachine`,
`DeleteVirtualMachine`), the Placement Planner, the Instance-Storage Gate and
the placement ConfigSpec synthesizer. Their implementations are not part of
the sources here (only their tests are), so they are modelled from the spec,
faithful to sections 4.1 to 4.4 and pinned to the behaviours the repository's
own tests assert.
-/

/-! ## Part 1: PVC admission validator (embedded from the source) -/

/-- Key of the instance-storage marker label (`constants.InstanceStorageLabelKey`). -/
def instanceStorageLabelKey : String := "vmoperator.vmware.com/instance-storage-resource"

/-- Key of the requested-topology PVC metadata entry
(`constants.AnnGuestClusterRequestedTopology`); the validator also uses this
same key to extract the zone name from each parsed topology map. -/
def annGuestClusterRequestedTopology : String := "csi.vsphere.volume-requested-topology"

/-- Format string `operationNotAllowedOnPVC` applied to an operation name. -/
def operationNotAllowedOnPVC (op : String) : String :=
  op ++ " operation on PVC with instance storage label is not allowed"

/-- Constant `addingISLabelNotAllowed`. -/
def addingISLabelNotAllowed : String := "adding instance storage label is not allowed"

/-- Constant `invalidZone`. -/
def invalidZoneMsg : String := "cannot use zone that is being deleted"

/-- The fixed allow-list `allowedAccountsForInstanceStoragePVC`. -/
def allowedAccountsForInstanceStoragePVC : List String :=
  ["system:serviceaccount:kube-system:persistent-volume-binder",
   "system:serviceaccount:kube-system:pvc-protection-controller",
   "system:serviceaccount:kube-system:generic-garbage-collector",
   "system:serviceaccount:kube-system:namespace-controller",
   "system:serviceaccount:vmware-system-csi:vsphere-csi-controller"]

/-- A zone resource (`topologyv1.Zone`): deletion-timestamp set once deletion begins. -/
structure ZoneRec where
  name : String
  nsName : String
  deletionTimestampSet : Bool
deriving DecidableEq

/-- A PersistentVolumeClaim as seen by the validator. `requestedTopologies`
is the parsed value of the requested-topology metadata entry. -/
structure PVCObj where
  name : String
  nsName : String
  labels : List (String × String)
  requestedTopologies : Option (List (List (String × String)))
deriving DecidableEq

/-- The webhook request context (`pkgctx.WebhookRequestContext` plus the
feature-gate configuration carried by the context). -/
structure RequestContext where
  isPrivilegedAccount : Bool
  username : String
  obj : PVCObj
  oldObj : PVCObj
  featureWorkloadDomainIsolation : Bool
deriving DecidableEq

/-- An admission response: allow/deny plus the validation-error reasons. -/
structure AdmissionResponse where
  allowed : Bool
  reasons : List String
deriving DecidableEq

/-- Association-list lookup, as Go map indexing over string keys. -/
def lookupKey (ls : List (String × String)) (k : String) : Option String :=
  (ls.find? (fun p => p.1 == k)).map (fun p => p.2)

/-- `isInstanceStorageLabelPresent`: key-presence check on the labels map. -/
def isInstanceStorageLabelPresent (ls : List (String × String)) : Bool :=
  (lookupKey ls instanceStorageLabelKey).isSome

/-- `isPrivilegedAccountForISPVC`: privileged flag or allow-listed username. -/
def isPrivilegedAccountForISPVC (ctx : RequestContext) : Bool :=
  ctx.isPrivilegedAccount || allowedAccountsForInstanceStoragePVC.contains ctx.username

/-- Rendering of `field.Forbidden(labelPath, msg).Error()`. -/
def forbiddenOnLabelPath (msg : String) : String :=
  "metadata.labels[" ++ instanceStorageLabelKey ++ "]: Forbidden: " ++ msg

/-- Rendering of `field.Invalid(annotationPath, value, msg).Error()`. -/
def invalidOnAnnPath (v msg : String) : String :=
  "metadata.annotation: Invalid value: " ++ v ++ ": " ++ msg

/-- `topology.GetZone`: resolve a zone by name in the PVC's namespace. -/
def getZone (zones : List ZoneRec) (zname ns : String) : Option ZoneRec :=
  zones.find? (fun z => z.name == zname && z.nsName == ns)

/-- The loop body of `validator.validateSpecifyZone`: walk the parsed
topologies; for each map carrying the zone key, resolve the zone and return
the first error (unresolvable zone, or zone with deletion-timestamp set). -/
def validateTopos (zones : List ZoneRec) (pvc : PVCObj) :
    List (List (String × String)) → List String
  | [] => []
  | topo :: rest =>
    match lookupKey topo annGuestClusterRequestedTopology with
    | none => validateTopos zones pvc rest
    | some zname =>
      match getZone zones zname pvc.nsName with
      | none => [invalidOnAnnPath pvc.name ("zone " ++ zname ++ " not found")]
      | some z =>
        if z.deletionTimestampSet then [invalidOnAnnPath pvc.name invalidZoneMsg]
        else validateTopos zones pvc rest

/-- `validator.validateSpecifyZone`. -/
def validateSpecifyZone (zones : List ZoneRec) (pvc : PVCObj) : List String :=
  match pvc.requestedTopologies with
  | none => []
  | some topos => validateTopos zones pvc topos

/-- `common.BuildValidationResponse`: allowed exactly when there are no
validation errors; the errors become the reasons. -/
def buildValidationResponse (errs : List String) : AdmissionResponse :=
  { allowed := errs.isEmpty, reasons := errs }

/-- `validator.ValidateCreate`. -/
def ValidateCreate (zones : List ZoneRec) (ctx : RequestContext) : AdmissionResponse :=
  if isPrivilegedAccountForISPVC ctx then buildValidationResponse []
  else
    let labelErrs := if isInstanceStorageLabelPresent ctx.obj.labels
      then [forbiddenOnLabelPath (operationNotAllowedOnPVC "CREATE")] else []
    let zoneErrs := if ctx.featureWorkloadDomainIsolation
      then validateSpecifyZone zones ctx.obj else []
    buildValidationResponse (labelErrs ++ zoneErrs)

/-- `validator.ValidateDelete`. -/
def ValidateDelete (ctx : RequestContext) : AdmissionResponse :=
  if isPrivilegedAccountForISPVC ctx then buildValidationResponse []
  else if isInstanceStorageLabelPresent ctx.obj.labels then
    buildValidationResponse [forbiddenOnLabelPath (operationNotAllowedOnPVC "DELETE")]
  else buildValidationResponse []

/-- `validator.ValidateUpdate`. -/
def ValidateUpdate (ctx : RequestContext) : AdmissionResponse :=
  if isPrivilegedAccountForISPVC ctx then buildValidationResponse []
  else if isInstanceStorageLabelPresent ctx.oldObj.labels then
    buildValidationResponse [forbiddenOnLabelPath (operationNotAllowedOnPVC "UPDATE")]
  else if isInstanceStorageLabelPresent ctx.obj.labels then
    buildValidationResponse [forbiddenOnLabelPath addingISLabelNotAllowed]
  else buildValidationResponse []

/-! ## Part 2: Convergence Reconciler model

Modelled from the spec: sections 3 (data model), 4.2 (Placement Planner),
4.3 (Instance-Storage Gate) and 4.4 (Convergence Reconciler). The
implementations of `CreateOrUpdateVirtualMachine` and `DeleteVirtualMachine`
are not among the sources (only `vmprovider_vm_test.go` is), so the remote
hypervisor is a single optional `RemoteVM`, the declarative store is the
`DesiredVM` value threaded through, and every error string is the one the
spec and the tests pin down. -/

/-- Power state of a VM; the desired-state intent set {On, Off, Suspended}. -/
inductive PowerState where
  | on
  | off
  | suspended
deriving DecidableEq

/-- A volume declared on a DesiredVM: a persistent-claim-backed volume
(instance-storage or CSI/CNS), or a hypervisor-native disk carrying a
resize request for the device with the given key. -/
inductive VolumeSpec where
  | pvc (name : String) (instanceStorage : Bool)
  | vsphereVol (name : String) (deviceKey : Nat) (capacity : Nat)
deriving DecidableEq

/-- Per-volume attachment status, written by the external volume controller. -/
structure VolumeStatus where
  name : String
  attached : Bool
  errorMsg : String
deriving DecidableEq

/-- Reconciler phase. `unset` is the zero value before any status write. -/
inductive Phase where
  | unset
  | pending
  | created
  | errorPhase
deriving DecidableEq

/-- The reconciler-owned status sub-object of a DesiredVM. -/
structure VMStatus where
  phase : Phase
  powerState : Option PowerState
  uniqueID : Option String
  host : Option String
  zone : Option String
  volumes : List VolumeStatus
deriving DecidableEq

/-- The declarative VM description. `zoneLabel` is the topology zone label;
`selectedNodeAnn` and `boundAnn` model the instance-storage selected-node
and claims-bound markers. -/
structure DesiredVM where
  name : String
  storageClass : String
  volumes : List VolumeSpec
  powerState : PowerState
  zoneLabel : Option String
  selectedNodeAnn : Bool
  boundAnn : Bool
  markedForDeletion : Bool
  status : VMStatus
deriving DecidableEq

/-- The VM class bound to the DesiredVM: hardware plus the ordered
instance-storage volume templates (sizes, one shared storage class). -/
structure VMClass where
  cpus : Nat
  memoryMB : Nat
  instanceStorageSizes : List Nat
  instanceStorageClass : String
deriving DecidableEq

/-- A fault-domain zone candidate for placement. -/
structure ZoneInfo where
  name : String
  deleting : Bool
deriving DecidableEq

/-- The live hypervisor-side VM handle (ObservedVM). Disks are
(device key, capacity) pairs. -/
structure RemoteVM where
  uniqueID : String
  zone : String
  host : String
  powerState : PowerState
  disks : List (Nat × Nat)
  cpus : Nat
  memoryMB : Nat
deriving DecidableEq

/-- Everything outside the DesiredVM that a reconcile invocation reads or
writes: the remote VM (if any), the placement zone candidates, the bound
class, whether cluster configuration demands a storage class, and the disk
inventory a freshly created VM inherits from its image. -/
structure World where
  remote : Option RemoteVM
  zones : List ZoneInfo
  vmClass : VMClass
  storageClassRequired : Bool
  imageDisks : List (Nat × Nat)
deriving DecidableEq

/-- Reconcile errors: retriable (re-queued with backoff) or terminal
user-input errors, each carrying the surfaced message. -/
inductive RecErr where
  | retriable (msg : String)
  | terminal (msg : String)
deriving DecidableEq

/-- Names of the instance-storage volumes among the declared volumes. -/
def isVolNames (vols : List VolumeSpec) : List String :=
  vols.filterMap fun v => match v with
    | .pvc n true => some n
    | _ => none

/-- Names of all persistent-claim-backed volumes among the declared volumes. -/
def pvcVolNames (vols : List VolumeSpec) : List String :=
  vols.filterMap fun v => match v with
    | .pvc n _ => some n
    | _ => none

/-- Find the status entry for the named volume. -/
def findVolStatus (sts : List VolumeStatus) (n : String) : Option VolumeStatus :=
  sts.find? (fun s => s.name == n)

/-- Modelled from the spec: section 4.3 Pending to Ready. A volume without a
status entry is still pending; attached means ready; not attached with a
non-empty error string is the attach failure. -/
def checkVolStatus (sts : List VolumeStatus) (n : String) : Option RecErr :=
  match findVolStatus sts n with
  | none => some (.retriable ("status update pending for persistent volume: " ++ n ++ " on VM"))
  | some s =>
    if s.attached then none
    else if s.errorMsg = "" then
      some (.retriable ("status update pending for persistent volume: " ++ n ++ " on VM"))
    else some (.retriable ("persistent volume: " ++ n ++ " not attached to VM"))

/-- First attachment error among the named volumes, in declared order. -/
def firstVolErr (sts : List VolumeStatus) (names : List String) : Option RecErr :=
  names.findSome? (checkVolStatus sts)

/-- Modelled from the spec: section 4.3, the Instance-Storage Gate. With no
instance-storage volumes the gate is trivially ready; with claims created but
the claims-bound marker absent it halts; otherwise it reports the first
per-volume attachment error, if any. -/
def instanceStorageGate (vm : DesiredVM) : Option RecErr :=
  if isVolNames vm.volumes = [] then none
  else if vm.boundAnn = false then
    some (.retriable "instance storage PVCs are not bound yet")
  else firstVolErr vm.status.volumes (isVolNames vm.volumes)

/-- Modelled from the spec: section 4.4 step 4, attachment verification for
claim-backed volumes before power-on, matching status entries by name. -/
def volumesAttachedCheck (vm : DesiredVM) : Option RecErr :=
  firstVolErr vm.status.volumes (pvcVolNames vm.volumes)

/-- The resize request for the disk with device key `k`, if any. -/
def requestedCap (vols : List VolumeSpec) (k : Nat) : Option Nat :=
  vols.findSome? fun v => match v with
    | .vsphereVol _ k2 c => if k2 = k then some c else none
    | _ => none

/-- Modelled from the spec: section 4.4 step 5 and section 8, monotonic disk
growth. Each disk with a resize request ends at max(observed, requested);
a shrink request is a silent no-op, never an error. -/
def applyResizes (vols : List VolumeSpec) (disks : List (Nat × Nat)) : List (Nat × Nat) :=
  disks.map fun d => match requestedCap vols d.1 with
    | some c => (d.1, Nat.max d.2 c)
    | none => d

/-- Modelled from the spec: section 4.4 step 6, unconditional status
write-back from the observed remote VM; per-volume attachment statuses are
owned by the external volume controller and preserved. -/
def writeStatus (vm : DesiredVM) (r : RemoteVM) : DesiredVM :=
  { vm with status := {
      phase := .created
      powerState := some r.powerState
      uniqueID := some r.uniqueID
      host := some r.host
      zone := some r.zone
      volumes := vm.status.volumes } }

/-- Modelled from the spec: section 4.3, record phase Pending on a gate halt
unless the phase is already Created. -/
def setPendingPhase (vm : DesiredVM) : DesiredVM :=
  if vm.status.phase = .created then vm
  else { vm with status := { vm.status with phase := .pending } }

/-- Modelled from the spec: section 4.2, zone resolution. A zone label
present on the DesiredVM wins (failing when that zone is unavailable or
deleting); otherwise the top-ranked recommendation is the first non-deleting
candidate, recorded back as the zone label. -/
def resolveZone (vm : DesiredVM) (w : World) : Except RecErr (String × DesiredVM) :=
  match vm.zoneLabel with
  | some z =>
    match w.zones.find? (fun zi => zi.name == z) with
    | some zi =>
      if zi.deleting then .error (.retriable "ZoneUnavailable") else .ok (z, vm)
    | none => .error (.retriable "ZoneUnavailable")
  | none =>
    match w.zones.find? (fun zi => !zi.deleting) with
    | some zi => .ok (zi.name, { vm with zoneLabel := some zi.name })
    | none => .error (.retriable "PlacementFailed")

/-- Deterministic name for the i-th instance-storage volume of a VM. -/
def isVolName (vmName : String) (i : Nat) : String :=
  vmName ++ "-is-" ++ toString i

/-- Modelled from the spec: section 4.3 Unconfigured to Claimed. If the bound
class declares instance-storage volumes and the VM does not carry them yet,
append one volume entry per template and record the selected-node marker. -/
def configureIS (vm : DesiredVM) (w : World) : DesiredVM :=
  if w.vmClass.instanceStorageSizes = [] then vm
  else if isVolNames vm.volumes ≠ [] then vm
  else { vm with
    volumes := vm.volumes ++ ((List.range w.vmClass.instanceStorageSizes.length).map
      fun i => .pvc (isVolName vm.name i) true)
    selectedNodeAnn := true }

/-- Modelled from the spec: section 4.4 step 2, creation of the remote VM in
the resolved zone's resource pool from the selected image, powered off until
the power-state intent is applied. -/
def createRemote (vm : DesiredVM) (z : String) (w : World) : RemoteVM :=
  { uniqueID := vm.name ++ "-moid"
    zone := z
    host := "host-" ++ z
    powerState := .off
    disks := w.imageDisks
    cpus := w.vmClass.cpus
    memoryMB := w.vmClass.memoryMB }

/-- Modelled from the spec: section 4.4 steps 3 to 6 for an existing remote
VM: re-derive the zone label from the live VM (reverse lookup), apply disk
resizes, gate power-on behind the Instance-Storage Gate and per-volume
attachment, apply the power-state intent last, and always write status back. -/
def updatePath (vm : DesiredVM) (r : RemoteVM) (w : World) :
    Option RecErr × DesiredVM × World :=
  let vm1 := { vm with zoneLabel := some r.zone }
  let r1 := { r with disks := applyResizes vm.volumes r.disks }
  match vm.powerState with
  | .off =>
    let r2 := { r1 with powerState := .off }
    (none, writeStatus vm1 r2, { w with remote := some r2 })
  | .suspended =>
    let r2 := { r1 with powerState := .suspended }
    (none, writeStatus vm1 r2, { w with remote := some r2 })
  | .on =>
    match instanceStorageGate vm with
    | some e => (some e, writeStatus vm1 r1, { w with remote := some r1 })
    | none =>
      match volumesAttachedCheck vm with
      | some e => (some e, writeStatus vm1 r1, { w with remote := some r1 })
      | none =>
        let r2 := { r1 with powerState := .on }
        (none, writeStatus vm1 r2, { w with remote := some r2 })

/-- Modelled from the spec: section 4.4 step 2 with sections 4.2 and 4.3:
when no remote VM exists, require the storage class, run placement, configure
instance storage, hold at the Instance-Storage Gate, then create the remote
VM and continue exactly as for an existing one. -/
def createPath (vm : DesiredVM) (w : World) : Option RecErr × DesiredVM × World :=
  if w.storageClassRequired = true ∧ vm.storageClass = "" then
    (some (.terminal "storage class is required but not specified"), vm, w)
  else
    match resolveZone vm w with
    | .error e => (some e, setPendingPhase vm, w)
    | .ok (z, vmz) =>
      let vm2 := configureIS vmz w
      match instanceStorageGate vm2 with
      | some e => (some e, setPendingPhase vm2, w)
      | none =>
        updatePath vm2 (createRemote vm2 z w) { w with remote := some (createRemote vm2 z w) }

/-- Modelled from the spec: section 4.4, the per-invocation entry point of
the Convergence Reconciler for a DesiredVM not marked for deletion. -/
def CreateOrUpdateVirtualMachine (vm : DesiredVM) (w : World) :
    Option RecErr × DesiredVM × World :=
  match w.remote with
  | some r => updatePath vm r w
  | none => createPath vm w

/-- Outcome of the provider-level delete call; the remote client
distinguishes NotFound and Timeout kinds (spec section 6). -/
inductive DeleteResult where
  | ok
  | notFound
  | rpcTimeout
deriving DecidableEq

/-- Remote operations issued while deleting. -/
inductive RemoteOp where
  | powerOff
  | deleteOp
deriving DecidableEq

/-- Modelled from the spec: sections 4.4 step 1 and 6. The provider delete
powers a running VM off first and never deletes a running VM directly; when
the remote VM no longer exists the call returns the distinguished NotFound
result, exactly as the repository's own test
(`returns NotFound when VM does not exist`) asserts. `rpcFails` injects a
transient transport failure. -/
def DeleteVirtualMachine (rpcFails : Bool) (vm : DesiredVM) (w : World) :
    DeleteResult × World × List RemoteOp :=
  if rpcFails then (.rpcTimeout, w, [])
  else match w.remote with
  | none => (.notFound, w, [])
  | some r =>
    if r.powerState = .on then (.ok, { w with remote := none }, [.powerOff, .deleteOp])
    else (.ok, { w with remote := none }, [.deleteOp])

/-- Modelled from the spec: section 7 failure taxonomy, item 3: the caller of
the delete operation treats NotFound as already-deleted success. -/
def deleteTreatedAsSuccess : DeleteResult → Bool
  | .ok => true
  | .notFound => true
  | .rpcTimeout => false

/-! ## Part 2b: placement ConfigSpec synthesizer -/

/-- An instance-storage volume template: size plus storage class. -/
structure ISVolTemplate where
  size : Nat
  storageClass : String
deriving DecidableEq

/-- Device-change operation kind. -/
inductive DeviceOperation where
  | add
  | edit
  | remove
deriving DecidableEq

/-- Device-change file operation kind. -/
inductive FileOperation where
  | create
  | replace
deriving DecidableEq

/-- One entry of a configuration document's device-change list; for an added
disk it carries the backing capacity and the storage-policy profile ID. -/
structure DeviceChange where
  operation : DeviceOperation
  fileOperation : Option FileOperation
  deviceKey : Int
  capacityInBytes : Nat
  profileID : Option String
deriving DecidableEq

/-- A placement-only configuration document. -/
structure PlacementConfigSpec where
  name : String
  numCPUs : Nat
  memoryMB : Nat
  deviceChange : List DeviceChange
deriving DecidableEq

/-- Storage class to storage-policy profile ID resolution. -/
def lookupPolicyID (m : List (String × String)) (k : String) : Option String :=
  (m.find? (fun p => p.1 == k)).map (fun p => p.2)

/-- Modelled from the spec: section 4.1(b). One add-disk device change per
instance-storage volume, in template order, file-operation create, capacity
the declared size, profile the policy ID resolved for the volume's storage
class, device keys drawn from a monotonically increasing allocator. -/
def isDeviceChanges (vols : List ISVolTemplate) (classToID : List (String × String))
    (key : Int) : List DeviceChange :=
  match vols with
  | [] => []
  | v :: rest =>
    { operation := .add
      fileOperation := some .create
      deviceKey := key
      capacityInBytes := v.size
      profileID := lookupPolicyID classToID v.storageClass }
    :: isDeviceChanges rest classToID (key + 1)

/-- Modelled from the spec: sections 4.1 and 4.2, `CreateConfigSpecForPlacement`.
The placement document sets the hardware fields directly and concatenates the
class-derived device changes with the instance-storage add-disk changes. -/
def CreateConfigSpecForPlacement (vmName : String) (cpus memMB : Nat)
    (baseChanges : List DeviceChange) (vols : List ISVolTemplate)
    (classToID : List (String × String)) (seedKey : Int) : PlacementConfigSpec :=
  { name := vmName
    numCPUs := cpus
    memoryMB := memMB
    deviceChange := baseChanges ++ isDeviceChanges vols classToID seedKey }

/-! ## Concrete instances used by the closed theorems -/

/-- A VM class without instance storage (hardware of the dummy test class). -/
def exClass : VMClass :=
  { cpus := 2, memoryMB := 4096, instanceStorageSizes := [], instanceStorageClass := "" }

/-- A VM class declaring the two instance-storage volumes of the test (256Gi, 512Gi). -/
def exClassIS : VMClass :=
  { cpus := 2, memoryMB := 4096, instanceStorageSizes := [256, 512],
    instanceStorageClass := "wcpglobal-storage-profile" }

/-- A world with no remote VM yet and one healthy placement zone. -/
def exWorld : World :=
  { remote := none
    zones := [{ name := "az-1", deleting := false }]
    vmClass := exClass
    storageClassRequired := true
    imageDisks := [(203, 1000)] }

/-- A basic DesiredVM before its first reconcile. -/
def exVM : DesiredVM :=
  { name := "test-vm"
    storageClass := "wcpglobal-storage-profile"
    volumes := []
    powerState := .on
    zoneLabel := none
    selectedNodeAnn := false
    boundAnn := false
    markedForDeletion := false
    status := { phase := .unset, powerState := none, uniqueID := none, host := none,
                zone := none, volumes := [] } }

/-- The DesiredVM after the first successful reconcile of `exVM`. -/
def exVM1 : DesiredVM := (CreateOrUpdateVirtualMachine exVM exWorld).2.1

/-- The world after the first successful reconcile of `exVM`. -/
def exW1 : World := (CreateOrUpdateVirtualMachine exVM exWorld).2.2

/-- World whose class declares instance storage. -/
def c2World : World := { exWorld with vmClass := exClassIS }

/-- A VM with one configured instance-storage volume whose claim reports an
attach failure (attached = false with a non-empty error string). -/
def c2cexVM : DesiredVM :=
  { exVM with
    volumes := [.pvc "is-vol-0" true]
    boundAnn := true
    status := { phase := .unset, powerState := none, uniqueID := none, host := none,
                zone := none,
                volumes := [{ name := "is-vol-0", attached := false,
                              errorMsg := "attach failed" }] } }

/-- World for the configured-volume counterexample. -/
def c2cexW : World :=
  { exWorld with vmClass := { exClassIS with instanceStorageSizes := [256] } }

/-- A DesiredVM marked for deletion. -/
def c3VM : DesiredVM := { exVM with markedForDeletion := true }

/-- The remote VM used for the resize scenario: home disk key 203, capacity 100. -/
def c5r : RemoteVM :=
  { uniqueID := "test-vm-moid", zone := "az-1", host := "host-az-1",
    powerState := .on, disks := [(203, 100)], cpus := 2, memoryMB := 4096 }

/-- A powered-off VM carrying a shrink request (50 < 100) for disk 203. -/
def c5VM : DesiredVM :=
  { exVM with volumes := [.vsphereVol "this-api-stinks" 203 50], powerState := .off }

/-- World with the remote VM present for the resize scenario. -/
def c5W : World := { exWorld with remote := some c5r }

/-- A DesiredVM explicitly placed into zone az-1 before its first reconcile. -/
def c6VM : DesiredVM := { exVM with zoneLabel := some "az-1" }

/-- The DesiredVM after the first successful reconcile of `c6VM`. -/
def c6VM1 : DesiredVM := (CreateOrUpdateVirtualMachine c6VM exWorld).2.1

/-- The world after the first successful reconcile of `c6VM`. -/
def c6W1 : World := (CreateOrUpdateVirtualMachine c6VM exWorld).2.2

/-- A DesiredVM requesting the empty storage class. -/
def c8VM : DesiredVM := { exVM with storageClass := "" }

/-- A PVC without labels or requested topologies. -/
def pvcPlain : PVCObj :=
  { name := "dummy-pvc", nsName := "dummy-ns", labels := [], requestedTopologies := none }

/-- A PVC carrying the instance-storage marker label. -/
def pvcIS : PVCObj := { pvcPlain with labels := [(instanceStorageLabelKey, "true")] }

/-- Non-privileged update request attempting to remove the marker label. -/
def c4ctxRemove : RequestContext :=
  { isPrivilegedAccount := false, username := "sso:user", obj := pvcPlain,
    oldObj := pvcIS, featureWorkloadDomainIsolation := false }

/-- Non-privileged update request attempting to add the marker label. -/
def c4ctxAdd : RequestContext := { c4ctxRemove with obj := pvcIS, oldObj := pvcPlain }

/-- Non-privileged delete request on a labelled object. -/
def c4ctxDel : RequestContext := { c4ctxRemove with obj := pvcIS }

/-- Privileged request touching labelled objects. -/
def c4ctxPriv : RequestContext :=
  { c4ctxRemove with isPrivilegedAccount := true, obj := pvcIS, oldObj := pvcIS }

/-- A zone whose deletion-timestamp is set. -/
def c7zone : ZoneRec := { name := "zone-1", nsName := "dummy-ns", deletionTimestampSet := true }

/-- A PVC whose requested-topology names `zone-1` under the validator's key. -/
def c7pvc : PVCObj :=
  { pvcPlain with requestedTopologies := some [[(annGuestClusterRequestedTopology, "zone-1")]] }

/-- Non-privileged create request naming the deleting zone, feature gate on. -/
def c7ctx : RequestContext :=
  { isPrivilegedAccount := false, username := "sso:user", obj := c7pvc,
    oldObj := pvcPlain, featureWorkloadDomainIsolation := true }

/-- Create request from an allow-listed service account, naming the deleting
zone and carrying the instance-storage marker label, feature gate on. -/
def c10ctx : RequestContext :=
  { isPrivilegedAccount := false
    username := "system:serviceaccount:kube-system:persistent-volume-binder"
    obj := { c7pvc with labels := [(instanceStorageLabelKey, "true")] }
    oldObj := pvcPlain
    featureWorkloadDomainIsolation := true }

/-! ## Helper lemmas -/

theorem writeStatus_volumes (vm : DesiredVM) (r : RemoteVM) :
    (writeStatus vm r).volumes = vm.volumes := rfl

theorem writeStatus_statusVolumes (vm : DesiredVM) (r : RemoteVM) :
    (writeStatus vm r).status.volumes = vm.status.volumes := rfl

theorem writeStatus_powerState (vm : DesiredVM) (r : RemoteVM) :
    (writeStatus vm r).powerState = vm.powerState := rfl

theorem writeStatus_zoneLabel (vm : DesiredVM) (r : RemoteVM) :
    (writeStatus vm r).zoneLabel = vm.zoneLabel := rfl

theorem gate_writeStatus (vm : DesiredVM) (r : RemoteVM) :
    instanceStorageGate (writeStatus vm r) = instanceStorageGate vm := rfl

theorem gate_zoneLabel (vm : DesiredVM) (z : Option String) :
    instanceStorageGate { vm with zoneLabel := z } = instanceStorageGate vm := rfl

theorem check_writeStatus (vm : DesiredVM) (r : RemoteVM) :
    volumesAttachedCheck (writeStatus vm r) = volumesAttachedCheck vm := rfl

theorem check_zoneLabel (vm : DesiredVM) (z : Option String) :
    volumesAttachedCheck { vm with zoneLabel := z } = volumesAttachedCheck vm := rfl

theorem RemoteVM.eta_disks (r : RemoteVM) (d : List (Nat × Nat)) (h : d = r.disks) :
    ({ r with disks := d } : RemoteVM) = r := by
  subst h; rfl

theorem RemoteVM.eta_power (r : RemoteVM) (p : PowerState) (h : p = r.powerState) :
    ({ r with powerState := p } : RemoteVM) = r := by
  subst h; rfl

theorem DesiredVM.eta_zoneLabel (vm : DesiredVM) (z : Option String) (h : z = vm.zoneLabel) :
    ({ vm with zoneLabel := z } : DesiredVM) = vm := by
  subst h; rfl

theorem World.eta_remote (w : World) (x : Option RemoteVM) (h : x = w.remote) :
    ({ w with remote := x } : World) = w := by
  subst h; rfl

theorem applyResizes_idem (vols : List VolumeSpec) (disks : List (Nat × Nat)) :
    applyResizes vols (applyResizes vols disks) = applyResizes vols disks := by
  unfold applyResizes
  rw [List.map_map]
  apply List.map_congr_left
  intro d _
  cases hreq : requestedCap vols d.1 with
  | none => simp [Function.comp, hreq]
  | some c => simp [Function.comp, hreq, Nat.max_assoc]

theorem converged_run (vm : DesiredVM) (r : RemoteVM) (w : World)
    (hw : w.remote = some r)
    (hd : applyResizes vm.volumes r.disks = r.disks)
    (hp : r.powerState = vm.powerState)
    (hg : vm.powerState = .on →
      instanceStorageGate vm = none ∧ volumesAttachedCheck vm = none) :
    CreateOrUpdateVirtualMachine vm w =
      (none, writeStatus { vm with zoneLabel := some r.zone } r, w) := by
  obtain ⟨ru, rz, rh, rp, rd, rc, rm⟩ := r
  obtain ⟨wr, wzs, wcl, wsc, wid⟩ := w
  have hd2 : applyResizes vm.volumes rd = rd := hd
  subst hw
  cases hps : vm.powerState with
  | «on» =>
    obtain ⟨hg1, hg2⟩ := hg hps
    have hp2 : rp = PowerState.on := hp.trans hps
    subst hp2
    simp only [CreateOrUpdateVirtualMachine, updatePath, hps, hg1, hg2]
    simp [writeStatus, hd2]
  | «off» =>
    have hp2 : rp = PowerState.off := hp.trans hps
    subst hp2
    simp only [CreateOrUpdateVirtualMachine, updatePath, hps]
    simp [writeStatus, hd2]
  | «suspended» =>
    have hp2 : rp = PowerState.suspended := hp.trans hps
    subst hp2
    simp only [CreateOrUpdateVirtualMachine, updatePath, hps]
    simp [writeStatus, hd2]

theorem updatePath_success_facts (vm : DesiredVM) (r : RemoteVM) (w : World)
    (vm1 : DesiredVM) (w1 : World)
    (h : updatePath vm r w = (none, vm1, w1)) :
    ∃ r2, w1 = { w with remote := some r2 } ∧ r2.zone = r.zone ∧
      vm1.zoneLabel = some r2.zone ∧
      vm1.status.zone = some r2.zone ∧
      applyResizes vm1.volumes r2.disks = r2.disks ∧
      r2.powerState = vm1.powerState ∧
      writeStatus { vm1 with zoneLabel := some r2.zone } r2 = vm1 ∧
      (vm1.powerState = .on →
        instanceStorageGate vm1 = none ∧ volumesAttachedCheck vm1 = none) := by
  cases hps : vm.powerState with
  | «on» =>
    cases hgate : instanceStorageGate vm with
    | some e =>
      simp only [updatePath, hps, hgate] at h
      simp at h
    | none =>
      cases hcheck : volumesAttachedCheck vm with
      | some e =>
        simp only [updatePath, hps, hgate, hcheck] at h
        simp at h
      | none =>
        simp only [updatePath, hps, hgate, hcheck, Prod.mk.injEq, true_and] at h
        obtain ⟨hvm, hw1⟩ := h
        subst hvm
        subst hw1
        refine ⟨_, rfl, rfl, rfl, rfl, applyResizes_idem _ _, rfl, rfl, ?_⟩
        intro _
        exact ⟨hgate, hcheck⟩
  | «off» =>
    simp only [updatePath, hps, Prod.mk.injEq, true_and] at h
    obtain ⟨hvm, hw1⟩ := h
    subst hvm
    subst hw1
    refine ⟨_, rfl, rfl, rfl, rfl, applyResizes_idem _ _, rfl, rfl, ?_⟩
    intro habs
    exact absurd (show PowerState.off = PowerState.on from habs) (by decide)
  | «suspended» =>
    simp only [updatePath, hps, Prod.mk.injEq, true_and] at h
    obtain ⟨hvm, hw1⟩ := h
    subst hvm
    subst hw1
    refine ⟨_, rfl, rfl, rfl, rfl, applyResizes_idem _ _, rfl, rfl, ?_⟩
    intro habs
    exact absurd (show PowerState.suspended = PowerState.on from habs) (by decide)

theorem success_facts (vm : DesiredVM) (w : World) (vm1 : DesiredVM) (w1 : World)
    (h : CreateOrUpdateVirtualMachine vm w = (none, vm1, w1)) :
    ∃ r2, w1 = { w with remote := some r2 } ∧
      vm1.zoneLabel = some r2.zone ∧
      vm1.status.zone = some r2.zone ∧
      applyResizes vm1.volumes r2.disks = r2.disks ∧
      r2.powerState = vm1.powerState ∧
      writeStatus { vm1 with zoneLabel := some r2.zone } r2 = vm1 ∧
      (vm1.powerState = .on →
        instanceStorageGate vm1 = none ∧ volumesAttachedCheck vm1 = none) := by
  unfold CreateOrUpdateVirtualMachine at h
  cases hw : w.remote with
  | some r =>
    rw [hw] at h
    obtain ⟨r2, hw1, _, h2, h3, h4, h5, h6, h7⟩ :=
      updatePath_success_facts vm r w vm1 w1 h
    exact ⟨r2, hw1, h2, h3, h4, h5, h6, h7⟩
  | none =>
    rw [hw] at h
    unfold createPath at h
    by_cases hsc : w.storageClassRequired = true ∧ vm.storageClass = ""
    · rw [if_pos hsc] at h
      simp at h
    · rw [if_neg hsc] at h
      cases hz : resolveZone vm w with
      | error e =>
        simp only [hz] at h
        simp at h
      | ok p =>
        obtain ⟨z, vmz⟩ := p
        simp only [hz] at h
        cases hgate : instanceStorageGate (configureIS vmz w) with
        | some e =>
          simp only [hgate] at h
          simp at h
        | none =>
          simp only [hgate] at h
          obtain ⟨r2, hw1, _, h2, h3, h4, h5, h6, h7⟩ :=
            updatePath_success_facts _ _ _ _ _ h
          exact ⟨r2, hw1, h2, h3, h4, h5, h6, h7⟩

theorem resolveZone_some_label (vm : DesiredVM) (w : World) (z : String)
    (p : String × DesiredVM) (hl : vm.zoneLabel = some z)
    (h : resolveZone vm w = .ok p) : p = (z, vm) := by
  unfold resolveZone at h
  simp only [hl] at h
  cases hf : w.zones.find? (fun zi => zi.name == z) with
  | none => simp only [hf] at h; simp at h
  | some zi =>
    simp only [hf] at h
    by_cases hdel : zi.deleting = true
    · rw [if_pos hdel] at h; simp at h
    · rw [if_neg hdel] at h
      simp only [Except.ok.injEq] at h
      exact h.symm

/-! ## Claim theorems -/

/-- C1: invoking the Convergence Reconciler (CreateOrUpdateVirtualMachine)
twice in succession on an unchanged DesiredVM produces no additional remote
modifications beyond the first invocation -- the second call returns the very
same world (the remote VM's configuration is unchanged) and the identical
DesiredVM, hence identical VMStatus; this holds for every DesiredVM whose
first reconcile succeeded. -/
theorem c1_reconcile_idempotent (vm : DesiredVM) (w : World)
    (vm1 : DesiredVM) (w1 : World)
    (h : CreateOrUpdateVirtualMachine vm w = (none, vm1, w1)) :
    CreateOrUpdateVirtualMachine vm1 w1 = (none, vm1, w1) := by
  obtain ⟨r2, hw1, hzl, hsz, hd, hp, hfix, hg⟩ := success_facts vm w vm1 w1 h
  have hrem : w1.remote = some r2 := by rw [hw1]
  have hrun := converged_run vm1 r2 w1 hrem hd hp hg
  rw [hrun]
  exact congrArg (fun x => ((none : Option RecErr), x, w1)) hfix

/-- C1 witness: the basic VM reconciles successfully once, and the second
invocation changes neither the world nor the VM status. -/
theorem c1_witness : CreateOrUpdateVirtualMachine exVM1 exW1 = (none, exVM1, exW1) :=
  c1_reconcile_idempotent exVM exWorld exVM1 exW1 rfl

/-- C6: after any successful reconcile the zone label and status zone agree,
and a later reconcile invoked with the zone label absent re-derives and
re-writes the same zone label and the same status zone -- it returns exactly
the same DesiredVM and world, never a different zone; moreover a zone label
set externally before creation is the zone recorded after creation. -/
theorem c6_zone_label_stability (vm : DesiredVM) (w : World)
    (vm1 : DesiredVM) (w1 : World)
    (h : CreateOrUpdateVirtualMachine vm w = (none, vm1, w1)) :
    vm1.status.zone = vm1.zoneLabel ∧
    CreateOrUpdateVirtualMachine { vm1 with zoneLabel := none } w1 = (none, vm1, w1) ∧
    (∀ z, w.remote = none → vm.zoneLabel = some z → vm1.zoneLabel = some z) := by
  obtain ⟨r2, hw1, hzl, hsz, hd, hp, hfix, hg⟩ := success_facts vm w vm1 w1 h
  refine ⟨by rw [hsz, hzl], ?_, ?_⟩
  · have hrem : ({ vm1 with zoneLabel := none } : DesiredVM).powerState = vm1.powerState := rfl
    have hd2 : applyResizes ({ vm1 with zoneLabel := none } : DesiredVM).volumes r2.disks
        = r2.disks := hd
    have hp2 : r2.powerState = ({ vm1 with zoneLabel := none } : DesiredVM).powerState := hp
    have hg2 : ({ vm1 with zoneLabel := none } : DesiredVM).powerState = .on →
        instanceStorageGate { vm1 with zoneLabel := none } = none ∧
        volumesAttachedCheck { vm1 with zoneLabel := none } = none := hg
    have hrun := converged_run { vm1 with zoneLabel := none } r2 w1 (by rw [hw1]) hd2 hp2 hg2
    rw [hrun]
    exact congrArg (fun x => ((none : Option RecErr), x, w1)) hfix
  · intro z hwnone hlabel
    unfold CreateOrUpdateVirtualMachine at h
    rw [hwnone] at h
    unfold createPath at h
    by_cases hsc : w.storageClassRequired = true ∧ vm.storageClass = ""
    · rw [if_pos hsc] at h
      simp at h
    · rw [if_neg hsc] at h
      cases hz : resolveZone vm w with
      | error e =>
        simp only [hz] at h
        simp at h
      | ok p =>
        have hpz := resolveZone_some_label vm w z p hlabel hz
        subst hpz
        simp only [hz] at h
        cases hgate : instanceStorageGate (configureIS vm w) with
        | some e =>
          simp only [hgate] at h
          simp at h
        | none =>
          simp only [hgate] at h
          obtain ⟨r2x, _, hzx, hzlx, _, _, _, _⟩ :=
            updatePath_success_facts _ _ _ _ _ h
          have hzz : r2x.zone = z := hzx
          rw [hzlx, hzz]

/-- C6 witness: a VM explicitly placed into az-1 is created there; deleting
the zone label and reconciling again restores the same label and status zone. -/
theorem c6_witness :
    CreateOrUpdateVirtualMachine { c6VM1 with zoneLabel := none } c6W1 =
      (none, c6VM1, c6W1) :=
  (c6_zone_label_stability c6VM exWorld c6VM1 c6W1 rfl).2.1

/-- C3 counterexample: for a DesiredVM marked for deletion whose remote VM no
longer exists, DeleteVirtualMachine does not return success -- it returns the
distinguished NotFound result, exactly as the repository's test
`returns NotFound when VM does not exist` asserts. -/
theorem c3_counterexample :
    c3VM.markedForDeletion = true ∧ exWorld.remote = none ∧
    (DeleteVirtualMachine false c3VM exWorld).1 = DeleteResult.notFound ∧
    (DeleteVirtualMachine false c3VM exWorld).1 ≠ DeleteResult.ok := by
  decide

/-- C3 (amended): for every DesiredVM marked for deletion whose remote VM no
longer exists, DeleteVirtualMachine returns the distinguished NotFound error
rather than plain success; the reconciler's failure taxonomy classifies that
NotFound as already-deleted success, and the world is left unchanged. -/
theorem c3_delete_not_found (vm : DesiredVM) (w : World)
    (hdel : vm.markedForDeletion = true) (hw : w.remote = none) :
    (DeleteVirtualMachine false vm w).1 = DeleteResult.notFound ∧
    deleteTreatedAsSuccess (DeleteVirtualMachine false vm w).1 = true ∧
    (DeleteVirtualMachine false vm w).2.1 = w := by
  unfold DeleteVirtualMachine
  rw [hw]
  exact ⟨rfl, rfl, rfl⟩

/-- C3 witness: the concrete marked-for-deletion VM with no remote VM. -/
theorem c3_witness :
    (DeleteVirtualMachine false c3VM exWorld).1 = DeleteResult.notFound ∧
    deleteTreatedAsSuccess (DeleteVirtualMachine false c3VM exWorld).1 = true ∧
    (DeleteVirtualMachine false c3VM exWorld).2.1 = exWorld :=
  c3_delete_not_found c3VM exWorld rfl rfl

/-- C8: when the remote VM does not yet exist and cluster configuration
requires a storage class, CreateOrUpdateVirtualMachine with an empty storage
class fails fast with exactly the terminal (non-retriable user-input) error
"storage class is required but not specified", leaving the DesiredVM (hence
VMStatus.phase) and the world (no remote VM) untouched. -/
theorem c8_storage_class_required (vm : DesiredVM) (w : World)
    (hw : w.remote = none) (hreq : w.storageClassRequired = true)
    (hsc : vm.storageClass = "") :
    CreateOrUpdateVirtualMachine vm w =
      (some (.terminal "storage class is required but not specified"), vm, w) := by
  unfold CreateOrUpdateVirtualMachine
  rw [hw]
  unfold createPath
  rw [if_pos ⟨hreq, hsc⟩]

/-- C8 witness: the VM requesting storage class "" fails fast with the exact
message while its phase is still unset. -/
theorem c8_witness :
    CreateOrUpdateVirtualMachine c8VM exWorld =
      (some (.terminal "storage class is required but not specified"), c8VM, exWorld) ∧
    c8VM.status.phase = Phase.unset ∧ exWorld.remote = none :=
  ⟨c8_storage_class_required c8VM exWorld rfl rfl rfl, rfl, rfl⟩

theorem isDeviceChanges_proj (vols : List ISVolTemplate)
    (classToID : List (String × String)) (key : Int) :
    (isDeviceChanges vols classToID key).map
        (fun d => (d.operation, d.fileOperation, d.capacityInBytes, d.profileID)) =
      vols.map (fun v => (DeviceOperation.add, some FileOperation.create, v.size,
        lookupPolicyID classToID v.storageClass)) := by
  induction vols generalizing key with
  | nil => rfl
  | cons v rest ih => simp [isDeviceChanges, ih]

/-- C9: CreateConfigSpecForPlacement produces a placement document whose
device-change list keeps the class-derived changes as a prefix and contains,
for each instance-storage volume in declared order, one add-disk device
change with operation add, file-operation create, capacity equal to the
declared volume size, and a storage-policy profile carrying the policy ID
resolved for the volume's storage class; being a pure function, the same
inputs give identical output (hence identical ordering) across calls. -/
theorem c9_placement_config_spec (vmName : String) (cpus memMB : Nat)
    (base : List DeviceChange) (vols : List ISVolTemplate)
    (classToID : List (String × String)) (seedKey : Int) :
    ((CreateConfigSpecForPlacement vmName cpus memMB base vols classToID
        seedKey).deviceChange.take base.length = base) ∧
    (((CreateConfigSpecForPlacement vmName cpus memMB base vols classToID
        seedKey).deviceChange.drop base.length).map
          (fun d => (d.operation, d.fileOperation, d.capacityInBytes, d.profileID)) =
      vols.map (fun v => (DeviceOperation.add, some FileOperation.create, v.size,
        lookupPolicyID classToID v.storageClass))) ∧
    (CreateConfigSpecForPlacement vmName cpus memMB base vols classToID seedKey =
      CreateConfigSpecForPlacement vmName cpus memMB base vols classToID seedKey) := by
  refine ⟨?_, ?_, rfl⟩
  · simp [CreateConfigSpecForPlacement, List.take_left]
  · simp [CreateConfigSpecForPlacement, List.drop_left, isDeviceChanges_proj]

/-- C10: every request from a privileged caller (the privileged-account flag,
covering admin and operator identities, or one of the fixed allow-listed
service accounts) is allowed by ValidateCreate immediately with no reasons,
for every zone store, feature-gate setting and object -- including a PVC
whose requested-topology names a zone that is being deleted. -/
theorem c10_privileged_bypass (zones : List ZoneRec) (ctx : RequestContext)
    (hpriv : isPrivilegedAccountForISPVC ctx = true) :
    ValidateCreate zones ctx = { allowed := true, reasons := [] } := by
  unfold ValidateCreate
  rw [if_pos hpriv]
  rfl

/-- C10 witness: an allow-listed service account creating a PVC that both
carries the instance-storage marker label and names a deleting zone, with the
zone-isolation feature gate enabled, is allowed without any validation. -/
theorem c10_witness :
    isPrivilegedAccountForISPVC c10ctx = true ∧
    c10ctx.featureWorkloadDomainIsolation = true ∧
    getZone [c7zone] "zone-1" c10ctx.obj.nsName = some c7zone ∧
    c7zone.deletionTimestampSet = true ∧
    ValidateCreate [c7zone] c10ctx = { allowed := true, reasons := [] } :=
  ⟨by decide, rfl, by decide, rfl, c10_privileged_bypass [c7zone] c10ctx (by decide)⟩

theorem isEmpty_append_singleton {α : Type} (L : List α) (x : α) :
    (L ++ [x]).isEmpty = false := by
  cases L <;> rfl

/-- C4: for every request context, when the caller is not privileged:
ValidateUpdate denies whenever the prior object carried the instance-storage
marker label, whatever the new object's labels (so removal attempts are
denied too); it denies separately, with the distinct adding-not-allowed
reason, when the marker appears where it was previously absent; and
ValidateDelete denies an object carrying the marker with the reason whose
text ends in "operation on PVC with instance storage label is not allowed".
A privileged caller is allowed in all of these cases. -/
theorem c4_admission_immutability (ctx : RequestContext) :
    (isPrivilegedAccountForISPVC ctx = false →
      ((isInstanceStorageLabelPresent ctx.oldObj.labels = true →
          (ValidateUpdate ctx).allowed = false ∧
          (ValidateUpdate ctx).reasons =
            [forbiddenOnLabelPath (operationNotAllowedOnPVC "UPDATE")]) ∧
       (isInstanceStorageLabelPresent ctx.oldObj.labels = false →
        isInstanceStorageLabelPresent ctx.obj.labels = true →
          (ValidateUpdate ctx).allowed = false ∧
          (ValidateUpdate ctx).reasons = [forbiddenOnLabelPath addingISLabelNotAllowed]) ∧
       (isInstanceStorageLabelPresent ctx.obj.labels = true →
          (ValidateDelete ctx).allowed = false ∧
          (ValidateDelete ctx).reasons =
            [forbiddenOnLabelPath (operationNotAllowedOnPVC "DELETE")]))) ∧
    (isPrivilegedAccountForISPVC ctx = true →
      (ValidateUpdate ctx).allowed = true ∧ (ValidateDelete ctx).allowed = true) ∧
    forbiddenOnLabelPath (operationNotAllowedOnPVC "DELETE") =
      "metadata.labels[vmoperator.vmware.com/instance-storage-resource]: Forbidden: DELETE " ++
        "operation on PVC with instance storage label is not allowed" := by
  refine ⟨?_, ?_, by decide⟩
  · intro hnp
    refine ⟨?_, ?_, ?_⟩
    · intro hold
      simp [ValidateUpdate, buildValidationResponse, hnp, hold]
    · intro hold hnew
      simp [ValidateUpdate, buildValidationResponse, hnp, hold, hnew]
    · intro hobj
      simp [ValidateDelete, buildValidationResponse, hnp, hobj]
  · intro hpriv
    constructor
    · simp [ValidateUpdate, buildValidationResponse, hpriv]
    · simp [ValidateDelete, buildValidationResponse, hpriv]

/-- C4 witness: concrete non-privileged removal, addition and delete requests
are denied; the same requests from a privileged caller are allowed. -/
theorem c4_witness :
    (ValidateUpdate c4ctxRemove).allowed = false ∧
    (ValidateUpdate c4ctxAdd).allowed = false ∧
    (ValidateUpdate c4ctxAdd).reasons = [forbiddenOnLabelPath addingISLabelNotAllowed] ∧
    (ValidateDelete c4ctxDel).allowed = false ∧
    (ValidateUpdate c4ctxPriv).allowed = true ∧
    (ValidateDelete c4ctxPriv).allowed = true :=
  ⟨(((c4_admission_immutability c4ctxRemove).1 (by decide)).1 (by decide)).1,
   (((c4_admission_immutability c4ctxAdd).1 (by decide)).2.1 (by decide) (by decide)).1,
   (((c4_admission_immutability c4ctxAdd).1 (by decide)).2.1 (by decide) (by decide)).2,
   (((c4_admission_immutability c4ctxDel).1 (by decide)).2.2 (by decide)).1,
   ((c4_admission_immutability c4ctxPriv).2.1 (by decide)).1,
   ((c4_admission_immutability c4ctxPriv).2.1 (by decide)).2⟩

theorem validateTopos_deleting (zones : List ZoneRec) (pvc : PVCObj)
    (pre post : List (List (String × String))) (topo : List (String × String))
    (zname : String) (z : ZoneRec)
    (hpre : ∀ t ∈ pre, ∀ zn, lookupKey t annGuestClusterRequestedTopology = some zn →
      ∃ zz, getZone zones zn pvc.nsName = some zz ∧ zz.deletionTimestampSet = false)
    (hkey : lookupKey topo annGuestClusterRequestedTopology = some zname)
    (hz : getZone zones zname pvc.nsName = some z)
    (hdel : z.deletionTimestampSet = true) :
    validateTopos zones pvc (pre ++ topo :: post) =
      [invalidOnAnnPath pvc.name invalidZoneMsg] := by
  induction pre with
  | nil =>
    simp only [List.nil_append]
    simp [validateTopos, hkey, hz, hdel]
  | cons t rest ih =>
    have hpt := hpre t (by simp)
    have hrest : ∀ t2 ∈ rest, ∀ zn,
        lookupKey t2 annGuestClusterRequestedTopology = some zn →
        ∃ zz, getZone zones zn pvc.nsName = some zz ∧ zz.deletionTimestampSet = false :=
      fun t2 ht2 => hpre t2 (List.mem_cons_of_mem _ ht2)
    simp only [List.cons_append]
    cases hk : lookupKey t annGuestClusterRequestedTopology with
    | none =>
      simp only [validateTopos, hk]
      exact ih hrest
    | some zn =>
      obtain ⟨zz, hzz, hzzdel⟩ := hpt zn hk
      simp only [validateTopos, hk, hzz, hzzdel]
      simpa using ih hrest

/-- C7: with the zone-isolation feature gate enabled, ValidateCreate from a
non-privileged caller denies a PVC whose requested-topology names (under the
validator's topology key) a zone whose deletion-timestamp is set, provided
every zone named earlier in the list resolves to a live zone; the reasons
carry the "cannot use zone that is being deleted" message. -/
theorem c7_zone_deletion_denied (zones : List ZoneRec) (ctx : RequestContext)
    (pre post : List (List (String × String))) (topo : List (String × String))
    (zname : String) (z : ZoneRec)
    (hpriv : isPrivilegedAccountForISPVC ctx = false)
    (hfss : ctx.featureWorkloadDomainIsolation = true)
    (htopos : ctx.obj.requestedTopologies = some (pre ++ topo :: post))
    (hpre : ∀ t ∈ pre, ∀ zn, lookupKey t annGuestClusterRequestedTopology = some zn →
      ∃ zz, getZone zones zn ctx.obj.nsName = some zz ∧ zz.deletionTimestampSet = false)
    (hkey : lookupKey topo annGuestClusterRequestedTopology = some zname)
    (hz : getZone zones zname ctx.obj.nsName = some z)
    (hdel : z.deletionTimestampSet = true) :
    (ValidateCreate zones ctx).allowed = false ∧
    invalidOnAnnPath ctx.obj.name invalidZoneMsg ∈ (ValidateCreate zones ctx).reasons := by
  have hv : validateSpecifyZone zones ctx.obj =
      [invalidOnAnnPath ctx.obj.name invalidZoneMsg] := by
    unfold validateSpecifyZone
    simp only [htopos]
    exact validateTopos_deleting zones ctx.obj pre post topo zname z hpre hkey hz hdel
  unfold ValidateCreate
  rw [if_neg (by simp [hpriv])]
  simp only [hfss, if_true, hv, buildValidationResponse]
  constructor
  · exact isEmpty_append_singleton _ _
  · exact List.mem_append_right _ (by simp)

/-- C7 witness: a non-privileged create of a PVC naming the deleting zone-1
under the validator's key, with the feature gate on, is denied with the
cannot-use-deleting-zone reason. -/
theorem c7_witness :
    (ValidateCreate [c7zone] c7ctx).allowed = false ∧
    invalidOnAnnPath "dummy-pvc" invalidZoneMsg ∈ (ValidateCreate [c7zone] c7ctx).reasons :=
  c7_zone_deletion_denied [c7zone] c7ctx [] []
    [(annGuestClusterRequestedTopology, "zone-1")] "zone-1" c7zone
    (by decide) rfl rfl (by simp) (by decide) (by decide) rfl

theorem updatePath_disks (vm : DesiredVM) (r : RemoteVM) (w : World) :
    ((updatePath vm r w).2.2.remote.map RemoteVM.disks) =
      some (applyResizes vm.volumes r.disks) := by
  cases hps : vm.powerState with
  | «on» =>
    cases hgate : instanceStorageGate vm with
    | some e => simp [updatePath, hps, hgate]
    | none =>
      cases hcheck : volumesAttachedCheck vm with
      | some e => simp [updatePath, hps, hgate, hcheck]
      | none => simp [updatePath, hps, hgate, hcheck]
  | «off» => simp [updatePath, hps]
  | «suspended» => simp [updatePath, hps]

theorem updatePath_err (vm : DesiredVM) (r : RemoteVM) (w : World) :
    (updatePath vm r w).1 =
      (match vm.powerState with
        | .on =>
          (match instanceStorageGate vm with
            | some e => some e
            | none => volumesAttachedCheck vm)
        | _ => none) := by
  cases hps : vm.powerState with
  | «on» =>
    cases hgate : instanceStorageGate vm with
    | some e => simp [updatePath, hps, hgate]
    | none =>
      cases hcheck : volumesAttachedCheck vm with
      | some e => simp [updatePath, hps, hgate, hcheck]
      | none => simp [updatePath, hps, hgate, hcheck]
  | «off» => simp [updatePath, hps]
  | «suspended» => simp [updatePath, hps]

/-- C5: for every reconcile of an existing remote VM, the resulting disk
inventory is exactly `applyResizes` of the observed disks: every disk with a
resize request ends at max(observed, requested) -- growth reaches the
requested size, a shrink is a silent no-op -- and disks without a request are
untouched; the error outcome of the reconcile never depends on the observed
disk capacities (so a shrink request never causes an error), and a reconcile
with power-off intent on an existing VM returns no error at all. -/
theorem c5_monotonic_disk_growth (vm : DesiredVM) (r : RemoteVM) (w : World)
    (hw : w.remote = some r) :
    ((CreateOrUpdateVirtualMachine vm w).2.2.remote.map RemoteVM.disks) =
      some (applyResizes vm.volumes r.disks) ∧
    (∀ k c obs, requestedCap vm.volumes k = some c → (k, obs) ∈ r.disks →
      (k, Nat.max obs c) ∈ applyResizes vm.volumes r.disks) ∧
    (∀ k obs, requestedCap vm.volumes k = none → (k, obs) ∈ r.disks →
      (k, obs) ∈ applyResizes vm.volumes r.disks) ∧
    (∀ disks2, (CreateOrUpdateVirtualMachine vm
        { w with remote := some { r with disks := disks2 } }).1 =
      (CreateOrUpdateVirtualMachine vm w).1) ∧
    (vm.powerState = .off → (CreateOrUpdateVirtualMachine vm w).1 = none) := by
  refine ⟨?_, ?_, ?_, ?_, ?_⟩
  · unfold CreateOrUpdateVirtualMachine
    rw [hw]
    exact updatePath_disks vm r w
  · intro k c obs hreq hm
    have := List.mem_map_of_mem
      (f := fun d : Nat × Nat => match requestedCap vm.volumes d.1 with
        | some c2 => (d.1, Nat.max d.2 c2)
        | none => d) hm
    simpa [applyResizes, hreq] using this
  · intro k obs hreq hm
    have := List.mem_map_of_mem
      (f := fun d : Nat × Nat => match requestedCap vm.volumes d.1 with
        | some c2 => (d.1, Nat.max d.2 c2)
        | none => d) hm
    simpa [applyResizes, hreq] using this
  · intro disks2
    unfold CreateOrUpdateVirtualMachine
    rw [hw]
    simp only []
    rw [updatePath_err, updatePath_err]
  · intro hoff
    unfold CreateOrUpdateVirtualMachine
    rw [hw, updatePath_err, hoff]

/-- C5 witness: the shrink request (50 < observed 100) on disk 203 leaves the
capacity at 100 and the reconcile succeeds without error. -/
theorem c5_witness :
    ((CreateOrUpdateVirtualMachine c5VM c5W).2.2.remote.map RemoteVM.disks) =
      some [(203, 100)] ∧
    (CreateOrUpdateVirtualMachine c5VM c5W).1 = none :=
  ⟨(c5_monotonic_disk_growth c5VM c5r c5W rfl).1.trans (by decide),
   (c5_monotonic_disk_growth c5VM c5r c5W rfl).2.2.2.2 rfl⟩

theorem checkVolStatus_no_entry (sts : List VolumeStatus) (n : String)
    (hf : findVolStatus sts n = none) :
    checkVolStatus sts n =
      some (.retriable ("status update pending for persistent volume: " ++ n ++ " on VM")) := by
  unfold checkVolStatus
  rw [hf]

theorem checkVolStatus_failed (sts : List VolumeStatus) (n : String) (s : VolumeStatus)
    (hf : findVolStatus sts n = some s) (ha : s.attached = false)
    (he : s.errorMsg ≠ "") :
    checkVolStatus sts n =
      some (.retriable ("persistent volume: " ++ n ++ " not attached to VM")) := by
  unfold checkVolStatus
  rw [hf]
  simp [ha, he]

theorem checkVolStatus_attached (sts : List VolumeStatus) (n : String) (s : VolumeStatus)
    (hf : findVolStatus sts n = some s) (ha : s.attached = true) :
    checkVolStatus sts n = none := by
  unfold checkVolStatus
  rw [hf]
  simp [ha]

theorem checkVolStatus_none (sts : List VolumeStatus) (n : String)
    (h : checkVolStatus sts n = none) :
    ∃ s, findVolStatus sts n = some s ∧ s.attached = true := by
  unfold checkVolStatus at h
  cases hf : findVolStatus sts n with
  | none =>
    simp only [hf] at h
    exact absurd h (by simp)
  | some s =>
    simp only [hf] at h
    cases ha : s.attached with
    | true => exact ⟨s, rfl, ha⟩
    | false =>
      rw [ha] at h
      simp only [Bool.false_eq_true, if_false] at h
      split_ifs at h

theorem gate_unbound (vm : DesiredVM)
    (hne : isVolNames vm.volumes ≠ []) (hb : vm.boundAnn = false) :
    instanceStorageGate vm =
      some (.retriable "instance storage PVCs are not bound yet") := by
  unfold instanceStorageGate
  rw [if_neg hne, if_pos hb]

theorem gate_ready (vm : DesiredVM)
    (hb : vm.boundAnn = true ∨ isVolNames vm.volumes = [])
    (hall : ∀ n ∈ isVolNames vm.volumes, checkVolStatus vm.status.volumes n = none) :
    instanceStorageGate vm = none := by
  unfold instanceStorageGate
  by_cases hne : isVolNames vm.volumes = []
  · rw [if_pos hne]
  · rw [if_neg hne]
    have hbt : vm.boundAnn = true := hb.resolve_right hne
    rw [if_neg (by simp [hbt])]
    exact List.findSome?_eq_none_iff.mpr hall

theorem check_ready (vm : DesiredVM)
    (hall : ∀ n ∈ pvcVolNames vm.volumes, checkVolStatus vm.status.volumes n = none) :
    volumesAttachedCheck vm = none := by
  unfold volumesAttachedCheck firstVolErr
  exact List.findSome?_eq_none_iff.mpr hall

theorem mem_isVolNames_pvc (vols : List VolumeSpec) (n : String)
    (h : n ∈ isVolNames vols) : n ∈ pvcVolNames vols := by
  unfold isVolNames at h
  unfold pvcVolNames
  rw [List.mem_filterMap] at h ⊢
  obtain ⟨v, hv, hf⟩ := h
  refine ⟨v, hv, ?_⟩
  cases v with
  | pvc nm b =>
    cases b with
    | true => simpa using hf
    | false => simp at hf
  | vsphereVol nm k c => simp at hf

theorem check_none_attached (vm : DesiredVM)
    (h : volumesAttachedCheck vm = none) :
    ∀ n ∈ pvcVolNames vm.volumes,
      ∃ s, findVolStatus vm.status.volumes n = some s ∧ s.attached = true := by
  intro n hn
  unfold volumesAttachedCheck firstVolErr at h
  exact checkVolStatus_none _ _ (List.findSome?_eq_none_iff.mp h n hn)

theorem configureIS_powerState (vm : DesiredVM) (w : World) :
    (configureIS vm w).powerState = vm.powerState := by
  unfold configureIS
  split_ifs <;> rfl

theorem resolveZone_ok_fields (vm : DesiredVM) (w : World) (z : String) (vmz : DesiredVM)
    (h : resolveZone vm w = .ok (z, vmz)) :
    vmz.powerState = vm.powerState ∧ vmz.volumes = vm.volumes ∧
    vmz.status = vm.status ∧ vmz.boundAnn = vm.boundAnn := by
  unfold resolveZone at h
  cases hl : vm.zoneLabel with
  | some z0 =>
    simp only [hl] at h
    cases hf : w.zones.find? (fun zi => zi.name == z0) with
    | none => simp only [hf] at h; simp at h
    | some zi =>
      simp only [hf] at h
      split_ifs at h with hd
      simp only [Except.ok.injEq, Prod.mk.injEq] at h
      obtain ⟨hz0, hvmz⟩ := h
      rw [← hvmz]
      exact ⟨rfl, rfl, rfl, rfl⟩
  | none =>
    simp only [hl] at h
    cases hf : w.zones.find? (fun zi => !zi.deleting) with
    | none => simp only [hf] at h; simp at h
    | some zi =>
      simp only [hf] at h
      simp only [Except.ok.injEq, Prod.mk.injEq] at h
      obtain ⟨hz0, hvmz⟩ := h
      rw [← hvmz]
      exact ⟨rfl, rfl, rfl, rfl⟩

theorem updatePath_poweron (vm : DesiredVM) (r : RemoteVM) (w : World)
    (e : Option RecErr) (vm1 : DesiredVM) (w1 : World) (r1 : RemoteVM)
    (h : updatePath vm r w = (e, vm1, w1))
    (hr1 : w1.remote = some r1) (hon : r1.powerState = .on)
    (hprev : r.powerState ≠ .on) :
    instanceStorageGate vm1 = none ∧ volumesAttachedCheck vm1 = none := by
  cases hps : vm.powerState with
  | «on» =>
    cases hgate : instanceStorageGate vm with
    | some eg =>
      simp only [updatePath, hps, hgate, Prod.mk.injEq] at h
      obtain ⟨he, hvm, hw1⟩ := h
      subst hw1
      simp only [Option.some.injEq] at hr1
      subst hr1
      exact absurd (show r.powerState = PowerState.on from hon) hprev
    | none =>
      cases hcheck : volumesAttachedCheck vm with
      | some ec =>
        simp only [updatePath, hps, hgate, hcheck, Prod.mk.injEq] at h
        obtain ⟨he, hvm, hw1⟩ := h
        subst hw1
        simp only [Option.some.injEq] at hr1
        subst hr1
        exact absurd (show r.powerState = PowerState.on from hon) hprev
      | none =>
        simp only [updatePath, hps, hgate, hcheck, Prod.mk.injEq] at h
        obtain ⟨he, hvm, hw1⟩ := h
        subst hvm
        exact ⟨hgate, hcheck⟩
  | «off» =>
    simp only [updatePath, hps, Prod.mk.injEq] at h
    obtain ⟨he, hvm, hw1⟩ := h
    subst hw1
    simp only [Option.some.injEq] at hr1
    subst hr1
    exact absurd (show PowerState.off = PowerState.on from hon) (by decide)
  | «suspended» =>
    simp only [updatePath, hps, Prod.mk.injEq] at h
    obtain ⟨he, hvm, hw1⟩ := h
    subst hw1
    simp only [Option.some.injEq] at hr1
    subst hr1
    exact absurd (show PowerState.suspended = PowerState.on from hon) (by decide)

theorem poweron_requires_attached (vmA : DesiredVM) (wA : World) (e : Option RecErr)
    (vmB : DesiredVM) (wB : World) (rB : RemoteVM)
    (h : CreateOrUpdateVirtualMachine vmA wA = (e, vmB, wB))
    (hrB : wB.remote = some rB) (hon : rB.powerState = .on)
    (hprev : wA.remote = none ∨ ∃ rA, wA.remote = some rA ∧ rA.powerState ≠ .on) :
    instanceStorageGate vmB = none ∧ volumesAttachedCheck vmB = none := by
  unfold CreateOrUpdateVirtualMachine at h
  cases hw : wA.remote with
  | some rA =>
    rw [hw] at h
    have hA : rA.powerState ≠ .on := by
      rcases hprev with hnone | ⟨rA2, hsome, hne⟩
      · rw [hw] at hnone
        simp at hnone
      · rw [hw] at hsome
        injection hsome with hh
        subst hh
        exact hne
    exact updatePath_poweron vmA rA wA e vmB wB rB h hrB hon hA
  | none =>
    rw [hw] at h
    unfold createPath at h
    by_cases hsc : wA.storageClassRequired = true ∧ vmA.storageClass = ""
    · rw [if_pos hsc] at h
      simp only [Prod.mk.injEq] at h
      obtain ⟨_, _, hwB⟩ := h
      rw [← hwB, hw] at hrB
      simp at hrB
    · rw [if_neg hsc] at h
      cases hz : resolveZone vmA wA with
      | error er =>
        simp only [hz] at h
        simp only [Prod.mk.injEq] at h
        obtain ⟨_, _, hwB⟩ := h
        rw [← hwB, hw] at hrB
        simp at hrB
      | ok p =>
        obtain ⟨z, vmz⟩ := p
        simp only [hz] at h
        cases hgate : instanceStorageGate (configureIS vmz wA) with
        | some eg =>
          simp only [hgate] at h
          simp only [Prod.mk.injEq] at h
          obtain ⟨_, _, hwB⟩ := h
          rw [← hwB, hw] at hrB
          simp at hrB
        | none =>
          simp only [hgate] at h
          refine updatePath_poweron _ _ _ _ _ _ _ h hrB hon ?_
          intro habs
          exact absurd (show PowerState.off = PowerState.on from habs) (by decide)

/-- C2 (amended): under a resolvable placement and a valid storage class, for
a VM whose bound class declares instance-storage volumes: (1) while the
claims-bound marker is absent the reconcile halts with retriable
"instance storage PVCs are not bound yet" and no remote VM is created;
(2) any Instance-Storage Gate error halts the reconcile unchanged; (3) a
declared volume with no status entry yields the retriable
"status update pending for persistent volume: n on VM" error, while (4) a
volume whose entry reports attached=false with a non-empty error yields the
retriable "persistent volume: n not attached to VM" error instead; (5) when
every claim-backed volume reports attached=true, creation proceeds and the
remote VM's power state follows the intent; and (6) in full generality a
reconcile can only transition the remote VM to powered-on when every declared
instance-storage volume has an attached=true status entry. -/
theorem c2_instance_storage_barrier (vm : DesiredVM) (w : World) (z : String)
    (vmz : DesiredVM)
    (hw : w.remote = none)
    (hsc : ¬(w.storageClassRequired = true ∧ vm.storageClass = ""))
    (hz : resolveZone vm w = .ok (z, vmz)) :
    (isVolNames (configureIS vmz w).volumes ≠ [] → (configureIS vmz w).boundAnn = false →
      CreateOrUpdateVirtualMachine vm w =
        (some (.retriable "instance storage PVCs are not bound yet"),
         setPendingPhase (configureIS vmz w), w)) ∧
    (∀ e, instanceStorageGate (configureIS vmz w) = some e →
      CreateOrUpdateVirtualMachine vm w =
        (some e, setPendingPhase (configureIS vmz w), w)) ∧
    (∀ n, findVolStatus (configureIS vmz w).status.volumes n = none →
      checkVolStatus (configureIS vmz w).status.volumes n =
        some (.retriable ("status update pending for persistent volume: " ++ n ++ " on VM"))) ∧
    (∀ n s, findVolStatus (configureIS vmz w).status.volumes n = some s →
      s.attached = false → s.errorMsg ≠ "" →
      checkVolStatus (configureIS vmz w).status.volumes n =
        some (.retriable ("persistent volume: " ++ n ++ " not attached to VM"))) ∧
    ((∀ n ∈ pvcVolNames (configureIS vmz w).volumes,
        ∃ s, findVolStatus (configureIS vmz w).status.volumes n = some s ∧
          s.attached = true) →
      ((configureIS vmz w).boundAnn = true ∨ isVolNames (configureIS vmz w).volumes = []) →
      (CreateOrUpdateVirtualMachine vm w).1 = none ∧
      ∃ rr, (CreateOrUpdateVirtualMachine vm w).2.2.remote = some rr ∧
        rr.powerState = vm.powerState) ∧
    (∀ vmA wA e vmB wB rB, CreateOrUpdateVirtualMachine vmA wA = (e, vmB, wB) →
      wB.remote = some rB → rB.powerState = .on →
      (wA.remote = none ∨ ∃ rA, wA.remote = some rA ∧ rA.powerState ≠ .on) →
      ∀ n ∈ isVolNames vmB.volumes,
        ∃ s, findVolStatus vmB.status.volumes n = some s ∧ s.attached = true) := by
  have hhalt : ∀ e, instanceStorageGate (configureIS vmz w) = some e →
      CreateOrUpdateVirtualMachine vm w =
        (some e, setPendingPhase (configureIS vmz w), w) := by
    intro e hg
    unfold CreateOrUpdateVirtualMachine
    rw [hw]
    unfold createPath
    rw [if_neg hsc]
    simp only [hz, hg]
  refine ⟨?_, hhalt, ?_, ?_, ?_, ?_⟩
  · intro hne hb
    exact hhalt _ (gate_unbound _ hne hb)
  · intro n hf
    exact checkVolStatus_no_entry _ _ hf
  · intro n s hf ha he
    exact checkVolStatus_failed _ _ _ hf ha he
  · intro hall hb
    have hgate : instanceStorageGate (configureIS vmz w) = none := by
      refine gate_ready _ hb ?_
      intro n hn
      obtain ⟨s, hf, ha⟩ := hall n (mem_isVolNames_pvc _ _ hn)
      exact checkVolStatus_attached _ _ _ hf ha
    have hcheck : volumesAttachedCheck (configureIS vmz w) = none := by
      refine check_ready _ ?_
      intro n hn
      obtain ⟨s, hf, ha⟩ := hall n hn
      exact checkVolStatus_attached _ _ _ hf ha
    have hpw : (configureIS vmz w).powerState = vm.powerState :=
      (configureIS_powerState vmz w).trans (resolveZone_ok_fields vm w z vmz hz).1
    unfold CreateOrUpdateVirtualMachine
    rw [hw]
    unfold createPath
    rw [if_neg hsc]
    simp only [hz, hgate]
    rw [← hpw]
    cases hp2 : (configureIS vmz w).powerState with
    | «on» =>
      simp only [updatePath, hp2, hgate, hcheck]
      exact ⟨trivial, _, rfl, rfl⟩
    | «off» =>
      simp only [updatePath, hp2]
      exact ⟨trivial, _, rfl, rfl⟩
    | «suspended» =>
      simp only [updatePath, hp2]
      exact ⟨trivial, _, rfl, rfl⟩
  · intro vmA wA e vmB wB rB hrun hrB hon hprev n hn
    exact check_none_attached vmB
      (poweron_requires_attached vmA wA e vmB wB rB hrun hrB hon hprev).2
      n (mem_isVolNames_pvc _ _ hn)

/-- C2 counterexample: with the claims-bound marker present, a declared
instance-storage volume whose status entry reports attached=false with a
non-empty error string "lacks an attached=true status entry", yet the
reconcile halts with "persistent volume: is-vol-0 not attached to VM", not
with the "status update pending ..." error the claim asserts for every such
volume. -/
theorem c2_counterexample :
    c2cexVM.boundAnn = true ∧
    findVolStatus c2cexVM.status.volumes "is-vol-0" =
      some { name := "is-vol-0", attached := false, errorMsg := "attach failed" } ∧
    (CreateOrUpdateVirtualMachine c2cexVM c2cexW).1 =
      some (.retriable ("persistent volume: is-vol-0 not attached to VM")) ∧
    (CreateOrUpdateVirtualMachine c2cexVM c2cexW).1 ≠
      some (.retriable ("status update pending for persistent volume: is-vol-0 on VM")) := by
  refine ⟨rfl, rfl, rfl, by decide⟩

/-- C2 witness: the class declaring two instance-storage volumes, before the
claims-bound marker appears, halts the reconcile with the not-bound error and
leaves the world (no remote VM) untouched. -/
theorem c2_witness :
    CreateOrUpdateVirtualMachine exVM c2World =
      (some (.retriable "instance storage PVCs are not bound yet"),
       setPendingPhase (configureIS { exVM with zoneLabel := some "az-1" } c2World),
       c2World) :=
  (c2_instance_storage_barrier exVM c2World "az-1"
      { exVM with zoneLabel := some "az-1" } rfl (by decide) rfl).1
    (by decide) (by decide)
